import Mathlib

/-!
Verification of the tethfinex exchange-adapter module (pyexchange/tethfinex.py).

The module is shallowly embedded: dictionaries become structures, the
fixed-point numeric dependency becomes integer arithmetic on scaled values,
and operations that can raise a Python exception return an Option or Except
value (none / error standing for the raised exception).
-/

namespace Tethfinex

/-- Modelled from the spec: the external FixedPointValue dependency (pymaker
Wad), a decimal-as-integer fixed-point type with 18 decimal places.  A value
holds the scaled integer; multiplication and division rescale by 10^18 and
round toward zero, and division by a zero divisor raises (modelled as none).
Negative values are permitted: the adapter uses the sign of a raw amount to
encode the trade side. -/
structure Wad where
  value : Int
deriving DecidableEq, Repr

/-- The fixed-point scale: 18 decimal places. -/
def wadScale : Int := 1000000000000000000

/-- Wad multiplication: the scaled product, truncated toward zero. -/
def Wad.wmul (a b : Wad) : Wad := ⟨Int.tdiv (a.value * b.value) wadScale⟩

/-- Wad division: the rescaled quotient, truncated toward zero; a zero
divisor raises a ZeroDivisionError, modelled as none. -/
def Wad.wdiv (a b : Wad) : Option Wad :=
  if b.value = 0 then none else some ⟨Int.tdiv (a.value * wadScale) b.value⟩

/-- Wad absolute value, as Python abs on the underlying integer. -/
def Wad.wabs (a : Wad) : Wad := ⟨|a.value|⟩

/-- A raw order record from the order-book endpoint, after the raw JSON
numbers amount and price have been lifted to Wad by the numeric dependency
(Wad.from_number); id is the integer order id. -/
structure RawOrder where
  id : Int
  amount : Wad
  price : Wad
deriving DecidableEq, Repr

/-- The Order value object of the module (order_id, pair, is_sell, price,
amount). -/
structure Order where
  order_id : Int
  pair : String
  is_sell : Bool
  price : Wad
  amount : Wad
deriving DecidableEq, Repr

/-- Order.to_order from the source: is_sell is raw amount > 0, amount is
abs(raw amount), the price field is amount / (amount * raw price) and the
amount field is amount * raw price.  The division raises (none) when the
divisor amount * raw price is the zero Wad. -/
def Order.to_order (pair : String) (order : RawOrder) : Option Order :=
  let is_sell := decide (0 < order.amount.value)
  let amount := Wad.wabs order.amount
  match Wad.wdiv amount (Wad.wmul amount order.price) with
  | none => none
  | some p => some ⟨order.id, pair, is_sell, p, Wad.wmul amount order.price⟩

/-- Modelled from the spec: the external date parsing dependency.  The raw
updated_at strings are naive ISO-8601 timestamps; the source appends a Z so
that they parse as UTC.  A parsed timestamp is modelled by its civil
fields. -/
structure CivilTime where
  year : Int
  month : Int
  day : Int
  hour : Int
  minute : Int
  second : Int
deriving DecidableEq, Repr

/-- Days from the civil epoch 1970-01-01 (standard civil-from-days
algorithm, floor conventions). -/
def daysFromCivil (y m d : Int) : Int :=
  let y1 := if m ≤ 2 then y - 1 else y
  let era := Int.fdiv y1 400
  let yoe := y1 - era * 400
  let mp := Int.emod (m + 9) 12
  let doy := Int.fdiv (153 * mp + 2) 5 + d - 1
  let doe := yoe * 365 + Int.fdiv yoe 4 - Int.fdiv yoe 100 + doy
  era * 146097 + doe - 719468

/-- Unix seconds of a civil time interpreted as UTC: what parsing the naive
string with an appended Z and taking the integer timestamp yields. -/
def CivilTime.utcTimestamp (t : CivilTime) : Int :=
  daysFromCivil t.year t.month t.day * 86400
    + t.hour * 3600 + t.minute * 60 + t.second

/-- A raw trade record from the order-history endpoint, with amount_orig and
price already lifted to Wad and updated_at already parsed to civil fields;
status is the raw status string used by the EXECUTED filter. -/
structure RawTrade where
  id : Int
  amount_orig : Wad
  price : Wad
  pair : String
  updated_at : CivilTime
  status : String
deriving DecidableEq, Repr

/-- The Trade value object of the module. -/
structure Trade where
  trade_id : Int
  timestamp : Int
  is_sell : Bool
  pair : String
  price : Wad
  amount : Wad
deriving DecidableEq, Repr

/-- Trade.to_trade from the source: total is raw price * amount_orig, the
timestamp is the UTC parse of updated_at with Z appended, is_sell is
amount_orig > 0, the price field is amount_orig / total (raising, hence
none, when total is the zero Wad) and the amount field is abs(total). -/
def Trade.to_trade (trade : RawTrade) : Option Trade :=
  let amount_orig := trade.amount_orig
  let total := Wad.wmul trade.price amount_orig
  match Wad.wdiv amount_orig total with
  | none => none
  | some p =>
    some ⟨trade.id, trade.updated_at.utcTimestamp,
          decide (0 < amount_orig.value), trade.pair, p, Wad.wabs total⟩

/-- Modelled from the spec: the fixed-point dependency's string rendering
(str on a Wad), also external to the repository.  The scaled integer is
zero-filled to at least 19 digits (one more for a sign) and a decimal point
is inserted before the last 18 digits, so every Wad prints with exactly 18
decimal places. -/
def zfill19 (n : Nat) : List Char :=
  let s := (toString n).data
  List.replicate (19 - s.length) '0' ++ s

/-- String form of a Wad, as used for the amount and price strings of the
order-placement payload. -/
def wadStr (a : Wad) : String :=
  if a.value < 0 then
    let t := zfill19 a.value.natAbs
    String.mk ('-' :: (t.take (t.length - 18) ++ '.' :: t.drop (t.length - 18)))
  else
    let t := zfill19 a.value.toNat
    String.mk (t.take (t.length - 18) ++ '.' :: t.drop (t.length - 18))

/-- The off-chain ZrxOrder record built by place_order, keeping the fields
the adapter fills in (the exchange binding, salt and expiration are passed
in by the caller of the model; signatures start out empty and are attached
by the external signer). -/
structure ZrxOrderModel where
  maker : String
  taker : String
  maker_fee : Wad
  taker_fee : Wad
  pay_token : String
  pay_amount : Wad
  buy_token : String
  buy_amount : Wad
  salt : Int
  fee_recipient : String
  expiration : Int
deriving DecidableEq, Repr

/-- The ZrxOrder construction inside place_order: when selling, pay_amount
is recomputed as (pay_amount / buy_amount) * buy_amount; when buying,
buy_amount is recomputed as (buy_amount / pay_amount) * pay_amount.  Either
division raises (none) on a zero divisor. -/
def buildZrxOrder (maker fee_address pay_token buy_token : String)
    (salt expiration : Int) (is_sell : Bool) (pay_amount buy_amount : Wad) :
    Option ZrxOrderModel :=
  match (if is_sell then (Wad.wdiv pay_amount buy_amount).map (fun q => Wad.wmul q buy_amount)
         else some pay_amount),
        (if is_sell then some buy_amount
         else (Wad.wdiv buy_amount pay_amount).map (fun q => Wad.wmul q pay_amount)) with
  | some payC, some buyC =>
      some ⟨maker, fee_address, ⟨0⟩, ⟨0⟩, pay_token, payC, buy_token, buyC,
            salt, fee_address, expiration⟩
  | _, _ => none

/-- The JSON payload place_order posts to the order-placement endpoint. -/
structure PlaceOrderPayload where
  type : String
  symbol : String
  amount : String
  price : String
  meta : String
  protocol : String
deriving DecidableEq, Repr

/-- TEthfinexApi.place_order: builds the ZrxOrder (with the defensive
rounding corrections), signs it (signJson stands for the external
sign_order followed by to_json), builds the wire payload and returns the
first element of the POST response.  A zero divisor in either division, or
an empty response array, raises (none). -/
def TEthfinexApi.place_order (maker : String) (salt expiration : Int)
    (signJson : ZrxOrderModel → String) (is_sell : Bool)
    (pay_token : String) (pay_amount : Wad) (buy_token : String) (buy_amount : Wad)
    (fee_address : String) (pair : String) (response : List Int) :
    Option (PlaceOrderPayload × Int) :=
  match buildZrxOrder maker fee_address pay_token buy_token salt expiration
          is_sell pay_amount buy_amount with
  | none => none
  | some order =>
    match (if is_sell then Wad.wdiv pay_amount buy_amount
           else Wad.wdiv buy_amount pay_amount) with
    | none => none
    | some priceW =>
      match response.head? with
      | none => none
      | some first =>
        some (⟨"EXCHANGE LIMIT", "t" ++ pair,
               (if is_sell then wadStr buy_amount else "-" ++ wadStr pay_amount),
               wadStr priceW, signJson order, "0x"⟩, first)

/-- TEthfinexApi.cancel_order: posts the signed cancel payload and returns
whether the first element of the response equals the order id.  Indexing an
empty response raises an IndexError, modelled as none. -/
def TEthfinexApi.cancel_order (order_id : Int) (response : List Int) : Option Bool :=
  match response.head? with
  | none => none
  | some r => some (decide (r = order_id))

/-- Error outcomes of the trade-listing calls: the page_number guard, and
the ZeroDivisionError that Trade.to_trade can raise. -/
inductive CallError where
  | pageNotSupported
  | zeroDivision
deriving DecidableEq, Repr

/-- The client-side filter of get_trades: keep the history entries whose
status string contains EXECUTED as a substring. -/
def executedOnly (orders : List RawTrade) : List RawTrade :=
  orders.filter (fun o => decide ("EXECUTED".data <:+: o.status.data))

/-- The fixed endpoint get_trades queries, independent of the pair
argument. -/
def TEthfinexApi.get_trades_endpoint (pair : String) : String :=
  "/trustless/v1/r/orders/hist"

/-- TEthfinexApi.get_trades: after the page_number == 1 guard, fetches the
full order history, keeps the EXECUTED entries and maps them through
Trade.to_trade (a raised ZeroDivisionError aborts the whole call). -/
def TEthfinexApi.get_trades (pair : String) (page_number : Int)
    (response : List RawTrade) : Except CallError (List Trade) :=
  if page_number = 1 then
    match (executedOnly response).mapM Trade.to_trade with
    | none => Except.error CallError.zeroDivision
    | some ts => Except.ok ts
  else Except.error CallError.pageNotSupported

/-- A raw entry of the public trade-history endpoint used by
get_all_trades. -/
structure PubTrade where
  tid : Int
  timestamp : Int
  type : String
  price : Wad
  amount : Wad
deriving DecidableEq, Repr

/-- TEthfinexApi.get_all_trades: after the page_number == 1 guard, maps the
public entries directly (no reciprocal transform); the pair argument is
stored in each resulting Trade. -/
def TEthfinexApi.get_all_trades (pair : String) (page_number : Int)
    (response : List PubTrade) : Except CallError (List Trade) :=
  if page_number = 1 then
    Except.ok (response.map fun item =>
      ⟨item.tid, item.timestamp, decide (item.type = "sell"),
       pair, item.price, item.amount⟩)
  else Except.error CallError.pageNotSupported

/-- An HTTP response as _result sees it: the success flag, the summary the
error messages embed, and the parsed JSON body when the body is valid
JSON. -/
structure HttpResponse (α : Type) where
  ok : Bool
  summary : String
  body : Option α

/-- The message of the transport error _result raises on a non-success
status. -/
def httpErrorMsg (s : String) : String :=
  "Ethfinex API invalid HTTP response: " ++ s

/-- The message of the parse error _result raises on an invalid JSON
body. -/
def jsonErrorMsg (s : String) : String :=
  "Ethfinex API invalid JSON response: " ++ s

/-- TEthfinexApi._result: raises the transport error on a non-success
status, the parse error when the body is not valid JSON, and otherwise
returns the parsed JSON. -/
def TEthfinexApi._result {α : Type} (result : HttpResponse α) : Except String α :=
  if result.ok = false then Except.error (httpErrorMsg result.summary)
  else
    match result.body with
    | none => Except.error (jsonErrorMsg result.summary)
    | some data => Except.ok data

/-- The deferred contract call TEthfinexToken.deposit builds: the contract
function name, its arguments, and the transaction value attached through
the transact keyword arguments (none when the kwargs are empty). -/
structure Transact where
  functionName : String
  args : List Int
  value : Option Int
deriving DecidableEq, Repr

/-- TEthfinexToken.deposit: a deposit(amount, duration) call; the ETH
wrapper attaches amount as the transaction value, every other token
attaches none.  The token argument is the symbol the wrapper was bound to
at construction. -/
def TEthfinexToken.deposit (token : String) (amount : Wad) (duration : Int) : Transact :=
  if token = "ETH" then
    ⟨"deposit", [amount.value, duration], some amount.value⟩
  else
    ⟨"deposit", [amount.value, duration], none⟩

/-- A Python value on the right of a Trade comparison: either a Trade or
one of the other runtime values a caller could pass. -/
inductive PyValue where
  | trade : Trade → PyValue
  | int : Int → PyValue
  | str : String → PyValue
  | noneVal : PyValue
deriving DecidableEq, Repr

/-- Whether a PyValue is a Trade instance. -/
def PyValue.isTrade : PyValue → Bool
  | .trade _ => true
  | _ => false

/-- Trade.__eq__: asserts the other operand is a Trade (raising an
AssertionError, modelled as none, otherwise) and compares all six fields
structurally. -/
def Trade.eq (self : Trade) (other : PyValue) : Option Bool :=
  match other with
  | .trade o =>
      some (decide (self.trade_id = o.trade_id ∧ self.timestamp = o.timestamp
        ∧ self.is_sell = o.is_sell ∧ self.pair = o.pair
        ∧ self.price = o.price ∧ self.amount = o.amount))
  | _ => none

/-- A concrete trade used to instantiate the Trade.__eq__ theorem. -/
def T0 : Trade :=
  ⟨1, 1546300800, true, "ETHUSD", ⟨2000000000000000000⟩, ⟨1000000000000000000⟩⟩

/-- A concrete raw trade whose total divides exactly, used to instantiate
the round-trip theorem. -/
def raw2 : RawTrade :=
  ⟨1, ⟨2000000000000000000⟩, ⟨500000000000000000⟩, "ETHUSD",
   ⟨2019, 5, 1, 12, 0, 0⟩, "EXECUTED"⟩

/-- The trade Trade.to_trade returns on raw2. -/
def t2 : Trade :=
  ⟨1, 1556712000, true, "ETHUSD", ⟨2000000000000000000⟩, ⟨1000000000000000000⟩⟩

/-- Claim C1, amended: for every raw order whose Wad amount is nonzero AND
whose Wad product abs(amount) * price is nonzero, Order.to_order returns an
Order with is_sell = (raw amount > 0), amount field = abs(raw amount) * raw
price, and price field = abs(raw amount) / (abs(raw amount) * raw price).
The extra nonzero-product condition is forced: with a nonzero amount but a
zero product the division raises and no Order is returned. -/
theorem to_order_fields (pair : String) (raw : RawOrder)
    (hamt : raw.amount.value ≠ 0)
    (hden : (Wad.wmul (Wad.wabs raw.amount) raw.price).value ≠ 0) :
    ∃ p : Wad,
      Wad.wdiv (Wad.wabs raw.amount) (Wad.wmul (Wad.wabs raw.amount) raw.price) = some p ∧
      Order.to_order pair raw =
        some ⟨raw.id, pair, decide (0 < raw.amount.value), p,
              Wad.wmul (Wad.wabs raw.amount) raw.price⟩ := by
  refine ⟨⟨Int.tdiv ((Wad.wabs raw.amount).value * wadScale)
            (Wad.wmul (Wad.wabs raw.amount) raw.price).value⟩, ?_, ?_⟩
  · simp [Wad.wdiv, hden]
  · simp [Order.to_order, Wad.wdiv, hden]

/-- Witness for C1: a sell order of raw amount 2.0 at raw price 0.5 is
normalized to is_sell, price 2.0 (the reciprocal) and amount 1.0. -/
theorem to_order_fields_w :
    Order.to_order "ETHUSD" ⟨5, ⟨2000000000000000000⟩, ⟨500000000000000000⟩⟩
      = some ⟨5, "ETHUSD", true, ⟨2000000000000000000⟩, ⟨1000000000000000000⟩⟩ := by
  obtain ⟨p, hp, ho⟩ :=
    to_order_fields "ETHUSD" ⟨5, ⟨2000000000000000000⟩, ⟨500000000000000000⟩⟩
      (by decide) (by decide)
  have hp2 : Wad.wdiv (Wad.wabs (⟨2000000000000000000⟩ : Wad))
      (Wad.wmul (Wad.wabs ⟨2000000000000000000⟩) ⟨500000000000000000⟩)
      = some ⟨2000000000000000000⟩ := by decide
  have : p = ⟨2000000000000000000⟩ := Option.some.inj (hp.symm.trans hp2)
  subst this
  exact ho.trans (by decide)

/-- Counterexample for C1 as stated: the raw order with Wad amount 1 (one
wei-unit, nonzero) and raw price 0 has a zero divisor, so Order.to_order
raises a ZeroDivisionError instead of returning an Order. -/
theorem to_order_fields_cex :
    ((⟨1, ⟨1⟩, ⟨0⟩⟩ : RawOrder).amount.value ≠ 0) ∧
    Order.to_order "ETHUSD" ⟨1, ⟨1⟩, ⟨0⟩⟩ = none := by decide

/-- Claim C2, amended: for a raw trade whose total = price * amount_orig is
nonzero and divides amount_orig * 10^18 exactly, Trade.to_trade returns a
trade with price * total == amount_orig, and its timestamp is the UTC
(Z-suffixed) parse of updated_at in unix seconds.  The exactness condition
is forced: fixed-point truncation breaks the round trip otherwise. -/
theorem to_trade_roundtrip (raw : RawTrade)
    (h0 : (Wad.wmul raw.price raw.amount_orig).value ≠ 0)
    (hdvd : raw.amount_orig.value * wadScale % (Wad.wmul raw.price raw.amount_orig).value = 0) :
    ∃ t : Trade, Trade.to_trade raw = some t ∧
      Wad.wmul t.price (Wad.wmul raw.price raw.amount_orig) = raw.amount_orig ∧
      t.timestamp = raw.updated_at.utcTimestamp := by
  obtain ⟨c, hc⟩ : (Wad.wmul raw.price raw.amount_orig).value ∣
      raw.amount_orig.value * wadScale := Int.dvd_of_emod_eq_zero hdvd
  refine ⟨⟨raw.id, raw.updated_at.utcTimestamp, decide (0 < raw.amount_orig.value),
          raw.pair,
          ⟨Int.tdiv (raw.amount_orig.value * wadScale)
            (Wad.wmul raw.price raw.amount_orig).value⟩,
          Wad.wabs (Wad.wmul raw.price raw.amount_orig)⟩, ?_, ?_, rfl⟩
  · simp [Trade.to_trade, Wad.wdiv, h0]
  · have hq : Int.tdiv (raw.amount_orig.value * wadScale)
        (Wad.wmul raw.price raw.amount_orig).value = c := by
      rw [hc]
      exact Int.mul_tdiv_cancel_left c h0
    show Wad.wmul ⟨Int.tdiv (raw.amount_orig.value * wadScale)
        (Wad.wmul raw.price raw.amount_orig).value⟩
        (Wad.wmul raw.price raw.amount_orig) = raw.amount_orig
    rw [Wad.wmul, hq]
    have : c * (Wad.wmul raw.price raw.amount_orig).value
        = raw.amount_orig.value * wadScale := by rw [Int.mul_comm, ← hc]
    rw [this]
    have hW : wadScale ≠ 0 := by decide
    rw [Int.mul_tdiv_cancel _ hW]

/-- Witness for C2: raw amount_orig 2.0 at raw price 0.5 gives total 1.0,
which divides exactly; the reciprocal price 2.0 times the total gives back
amount_orig 2.0, and the timestamp is the UTC parse of 2019-05-01
12:00:00. -/
theorem to_trade_roundtrip_w :
    Trade.to_trade raw2 = some t2 ∧
    Wad.wmul t2.price (Wad.wmul raw2.price raw2.amount_orig) = raw2.amount_orig ∧
    t2.timestamp = raw2.updated_at.utcTimestamp := by
  obtain ⟨t, h1, h2, h3⟩ := to_trade_roundtrip raw2 (by decide) (by decide)
  have hc : Trade.to_trade raw2 = some t2 := by decide
  have : t = t2 := Option.some.inj (h1.symm.trans hc)
  subst this
  exact ⟨hc, h2, h3⟩

/-- Counterexample for C2 as stated: a raw trade of amount_orig 1.0 at raw
price 3.0 has total 3.0; the truncated reciprocal price times the total is
0.999999999999999999, not amount_orig, so the exact round trip fails in the
code's fixed-point arithmetic. -/
theorem to_trade_roundtrip_cex :
    Trade.to_trade ⟨1, ⟨1000000000000000000⟩, ⟨3000000000000000000⟩, "ETHUSD",
        ⟨2019, 1, 1, 0, 0, 0⟩, "EXECUTED"⟩
      = some ⟨1, 1546300800, true, "ETHUSD", ⟨333333333333333333⟩,
              ⟨3000000000000000000⟩⟩ ∧
    Wad.wmul ⟨333333333333333333⟩ (Wad.wmul ⟨3000000000000000000⟩ ⟨1000000000000000000⟩)
      ≠ ⟨1000000000000000000⟩ := by decide

/-- Claim C5: a zero raw amount makes Order.to_order raise a
ZeroDivisionError, and a zero total makes Trade.to_trade raise one; in the
integer model no infinity or NaN exists to be returned, matching the policy
that no invalid numeric value propagates. -/
theorem zero_input_raises (pair : String) (oid : Int) (p : Wad) (rawT : RawTrade) :
    Order.to_order pair ⟨oid, ⟨0⟩, p⟩ = none ∧
    ((Wad.wmul rawT.price rawT.amount_orig).value = 0 → Trade.to_trade rawT = none) := by
  constructor
  · simp [Order.to_order, Wad.wabs, Wad.wmul, Wad.wdiv]
  · intro h
    simp [Trade.to_trade, Wad.wdiv, h]

/-- Witness for C5: a zero-amount raw order and a zero-total raw trade both
raise instead of returning a value. -/
theorem zero_input_raises_w :
    Order.to_order "ETHUSD" ⟨1, ⟨0⟩, ⟨5000000000000000000⟩⟩ = none ∧
    Trade.to_trade ⟨1, ⟨7⟩, ⟨0⟩, "ETHUSD", ⟨2019, 1, 1, 0, 0, 0⟩, "EXECUTED"⟩ = none := by
  refine ⟨(zero_input_raises "ETHUSD" 1 ⟨5000000000000000000⟩
      ⟨1, ⟨7⟩, ⟨0⟩, "ETHUSD", ⟨2019, 1, 1, 0, 0, 0⟩, "EXECUTED"⟩).1,
    (zero_input_raises "ETHUSD" 1 ⟨5000000000000000000⟩
      ⟨1, ⟨7⟩, ⟨0⟩, "ETHUSD", ⟨2019, 1, 1, 0, 0, 0⟩, "EXECUTED"⟩).2 (by decide)⟩

/-- Claim C3, amended: for every call whose divisor amount (buy_amount when
selling, pay_amount when buying) is a nonzero Wad and whose response array
is nonempty, place_order sends a payload with type EXCHANGE LIMIT, symbol
t + pair, protocol 0x, amount the buy_amount string when selling and the
negated pay_amount string otherwise, price pay_amount / buy_amount when
selling and buy_amount / pay_amount otherwise, meta the signed order's wire
JSON form, and returns the first element of the response array.  The
nonzero condition is forced: a zero divisor raises before any payload is
built. -/
theorem place_order_payload (maker : String) (salt expiration : Int)
    (signJson : ZrxOrderModel → String) (is_sell : Bool)
    (pay_token : String) (pay_amount : Wad) (buy_token : String) (buy_amount : Wad)
    (fee_address pair : String) (r0 : Int) (rest : List Int)
    (hden : (if is_sell then buy_amount.value else pay_amount.value) ≠ 0) :
    ∃ ord priceW,
      buildZrxOrder maker fee_address pay_token buy_token salt expiration
        is_sell pay_amount buy_amount = some ord ∧
      (if is_sell then Wad.wdiv pay_amount buy_amount
       else Wad.wdiv buy_amount pay_amount) = some priceW ∧
      TEthfinexApi.place_order maker salt expiration signJson is_sell pay_token
        pay_amount buy_token buy_amount fee_address pair (r0 :: rest)
        = some (⟨"EXCHANGE LIMIT", "t" ++ pair,
                 (if is_sell then wadStr buy_amount else "-" ++ wadStr pay_amount),
                 wadStr priceW, signJson ord, "0x"⟩, r0) := by
  cases is_sell with
  | true =>
    simp only [if_true, Bool.true_eq] at hden ⊢
    refine ⟨⟨maker, fee_address, ⟨0⟩, ⟨0⟩, pay_token,
        Wad.wmul ⟨Int.tdiv (pay_amount.value * wadScale) buy_amount.value⟩ buy_amount,
        buy_token, buy_amount, salt, fee_address, expiration⟩,
      ⟨Int.tdiv (pay_amount.value * wadScale) buy_amount.value⟩, ?_, ?_, ?_⟩
    · simp [buildZrxOrder, Wad.wdiv, hden]
    · simp [Wad.wdiv, hden]
    · simp [TEthfinexApi.place_order, buildZrxOrder, Wad.wdiv, hden]
  | false =>
    simp only [Bool.false_eq_true, if_false] at hden ⊢
    refine ⟨⟨maker, fee_address, ⟨0⟩, ⟨0⟩, pay_token, pay_amount, buy_token,
        Wad.wmul ⟨Int.tdiv (buy_amount.value * wadScale) pay_amount.value⟩ pay_amount,
        salt, fee_address, expiration⟩,
      ⟨Int.tdiv (buy_amount.value * wadScale) pay_amount.value⟩, ?_, ?_, ?_⟩
    · simp [buildZrxOrder, Wad.wdiv, hden]
    · simp [Wad.wdiv, hden]
    · simp [TEthfinexApi.place_order, buildZrxOrder, Wad.wdiv, hden]

/-- Witness for C3: selling 2.0 pay units for 1.0 buy units posts amount
1.000000000000000000, price 2.000000000000000000, symbol tETHUSD, the
signed order JSON and protocol 0x, and returns the response's first
element 9. -/
theorem place_order_payload_w :
    TEthfinexApi.place_order "M" 7 99 (fun _ => "SIG") true "P"
        ⟨2000000000000000000⟩ "B" ⟨1000000000000000000⟩ "F" "ETHUSD" [9]
      = some (⟨"EXCHANGE LIMIT", "tETHUSD", "1.000000000000000000",
               "2.000000000000000000", "SIG", "0x"⟩, 9) := by
  obtain ⟨ord, pw, h1, h2, h3⟩ :=
    place_order_payload "M" 7 99 (fun _ => "SIG") true "P" ⟨2000000000000000000⟩
      "B" ⟨1000000000000000000⟩ "F" "ETHUSD" 9 [] (by decide)
  have e1 : buildZrxOrder "M" "F" "P" "B" 7 99 true ⟨2000000000000000000⟩
      ⟨1000000000000000000⟩
      = some (⟨"M", "F", ⟨0⟩, ⟨0⟩, "P", ⟨2000000000000000000⟩, "B",
              ⟨1000000000000000000⟩, 7, "F", 99⟩ : ZrxOrderModel) := by decide
  have e2 : (if true then Wad.wdiv (⟨2000000000000000000⟩ : Wad) ⟨1000000000000000000⟩
      else Wad.wdiv ⟨1000000000000000000⟩ ⟨2000000000000000000⟩)
      = some (⟨2000000000000000000⟩ : Wad) := by decide
  have ho : ord = ⟨"M", "F", ⟨0⟩, ⟨0⟩, "P", ⟨2000000000000000000⟩, "B",
      ⟨1000000000000000000⟩, 7, "F", 99⟩ := Option.some.inj (h1.symm.trans e1)
  have hw : pw = ⟨2000000000000000000⟩ := Option.some.inj (h2.symm.trans e2)
  subst ho hw
  exact h3.trans (by decide)

/-- Counterexample for C3 as stated: a sell with a zero buy_amount makes
the order-construction division raise, so no payload is sent and nothing is
returned. -/
theorem place_order_payload_cex :
    TEthfinexApi.place_order "M" 7 99 (fun _ => "SIG") true "P"
        ⟨1000000000000000000⟩ "B" ⟨0⟩ "F" "ETHUSD" [9] = none := by decide

/-- Claim C4, amended: for every response that parses as a JSON array with
at least one element, cancel_order returns the boolean comparing the first
element with order_id (false on a mismatch, without raising); an empty
array makes the indexing itself raise, which the original claim excluded.
-/
theorem cancel_order_result (order_id r : Int) (rest : List Int) :
    TEthfinexApi.cancel_order order_id (r :: rest) = some (decide (r = order_id)) ∧
    (TEthfinexApi.cancel_order order_id (r :: rest) = some true ↔ r = order_id) := by
  refine ⟨rfl, ?_⟩
  simp [TEthfinexApi.cancel_order]

/-- Counterexample for C4 as stated: the empty JSON array parses fine, yet
cancel_order raises an IndexError on it instead of returning a boolean. -/
theorem cancel_order_result_cex :
    TEthfinexApi.cancel_order 42 [] = none := rfl

/-- Claim C6: on a non-success status _result raises the API error carrying
the response summary; on a success status with a non-JSON body it raises
the parse error carrying the same summary, and the two error messages are
distinct for every summary; otherwise it returns the parsed JSON. -/
theorem result_error_spec {α : Type} (s : String) (b : Option α) (j : α) :
    TEthfinexApi._result ⟨false, s, b⟩ = Except.error (httpErrorMsg s) ∧
    TEthfinexApi._result (⟨true, s, none⟩ : HttpResponse α) = Except.error (jsonErrorMsg s) ∧
    TEthfinexApi._result ⟨true, s, some j⟩ = Except.ok j ∧
    httpErrorMsg s ≠ jsonErrorMsg s := by
  refine ⟨rfl, rfl, rfl, ?_⟩
  intro h
  have hd := congrArg String.data h
  simp only [httpErrorMsg, jsonErrorMsg, String.data_append] at hd
  exact absurd (List.append_cancel_right hd) (by decide)

/-- Claim C7: both trade listings reject exactly the calls whose
page_number differs from 1 (for every response, so the rejection precedes
any use of the network), and with page_number 1 the page guard passes. -/
theorem page_number_guard (pair : String) (page : Int)
    (rT : List RawTrade) (rP : List PubTrade) :
    (TEthfinexApi.get_trades pair page rT = Except.error CallError.pageNotSupported
      ↔ page ≠ 1) ∧
    (TEthfinexApi.get_all_trades pair page rP = Except.error CallError.pageNotSupported
      ↔ page ≠ 1) := by
  by_cases hp : page = 1
  · subst hp
    simp only [TEthfinexApi.get_trades, TEthfinexApi.get_all_trades, if_pos rfl]
    constructor
    · rcases h : (executedOnly rT).mapM Trade.to_trade with _ | ts <;> simp
    · simp
  · simp [TEthfinexApi.get_trades, TEthfinexApi.get_all_trades, hp]

/-- Claim C8: deposit builds a deposit(amount, duration) call whose
transaction value is amount exactly when the bound token is ETH and absent
otherwise, with identical call arguments in both cases. -/
theorem deposit_value_iff_eth (token : String) (amount : Wad) (duration : Int) :
    ((TEthfinexToken.deposit token amount duration).value = some amount.value
      ↔ token = "ETH") ∧
    ((TEthfinexToken.deposit token amount duration).value = none ↔ token ≠ "ETH") ∧
    (TEthfinexToken.deposit token amount duration).functionName = "deposit" ∧
    (TEthfinexToken.deposit token amount duration).args = [amount.value, duration] := by
  by_cases h : token = "ETH" <;> simp [TEthfinexToken.deposit, h]

/-- Claim C9: get_trades queries the same fixed history endpoint and
returns the same trades for any two pair arguments and the same response:
the pair argument influences neither the endpoint, nor the EXECUTED filter,
nor any field of the resulting trades (each pair field comes from the raw
record). -/
theorem get_trades_pair_independent (p1 p2 : String) (resp : List RawTrade) :
    TEthfinexApi.get_trades_endpoint p1 = TEthfinexApi.get_trades_endpoint p2 ∧
    TEthfinexApi.get_trades p1 1 resp = TEthfinexApi.get_trades p2 1 resp :=
  ⟨rfl, rfl⟩

/-- Claim C10: comparing a Trade with a non-Trade value raises an
AssertionError rather than returning a boolean, and comparing two Trades
returns the structural equality of all six fields. -/
theorem trade_eq_spec (t u : Trade) (v : PyValue) :
    (v.isTrade = false → Trade.eq t v = none) ∧
    Trade.eq t (PyValue.trade u) = some (decide (t = u)) ∧
    (Trade.eq t (PyValue.trade u) = some true ↔ t = u) := by
  have hiff : (t.trade_id = u.trade_id ∧ t.timestamp = u.timestamp
      ∧ t.is_sell = u.is_sell ∧ t.pair = u.pair
      ∧ t.price = u.price ∧ t.amount = u.amount) ↔ t = u := by
    cases t; cases u; simp [Trade.mk.injEq]
  refine ⟨?_, ?_, ?_⟩
  · intro h
    cases v <;> simp_all [Trade.eq, PyValue.isTrade]
  · simp only [Trade.eq]
    exact congrArg some (decide_eq_decide.mpr hiff)
  · simp only [Trade.eq, Option.some.injEq, decide_eq_true_eq]
    exact hiff

/-- Witness for C10: comparing the concrete trade T0 with the integer 0
raises, and comparing T0 with itself returns true. -/
theorem trade_eq_spec_w :
    Trade.eq T0 (PyValue.int 0) = none ∧
    Trade.eq T0 (PyValue.trade T0) = some true :=
  ⟨(trade_eq_spec T0 T0 (PyValue.int 0)).1 rfl,
   (trade_eq_spec T0 T0 (PyValue.trade T0)).2.2.mpr rfl⟩

end Tethfinex
